import Mathlib

/-!
Verification development for the evidence capture core of the healthtech-taxonomy
repository (src/core/capture.py and src/core/scraper.py).

Python strings are embedded as lists of characters (`PyStr`), byte blobs by their
sizes, and the Playwright / requests drivers by explicit outcome records
(`PageEnv`, `DocEnv`) whose fields give the result of each driver call: `.ok`
for a normal return and `.error e` for a raised exception with message `e`.
Each Lean definition mirrors one Python function of the source, keeping its
name (leading underscores dropped).
-/

deriving instance DecidableEq for Except

namespace Capture

/-- PyStr embeds a Python str as its list of characters. -/
abbrev PyStr := List Char

/-- pyStr converts a Lean string literal to the embedded representation. -/
def pyStr (s : String) : PyStr := s.toList

/-- pyLower models Python str.lower for ASCII text (the only text the
repository lowercases). -/
def pyLower (s : PyStr) : PyStr := s.map Char.toLower

/-- isSpaceChar models the ASCII part of the regex class backslash-s. -/
def isSpaceChar (c : Char) : Bool :=
  c == ' ' || c == '\t' || c == '\n' || c == '\r'

/-- pyStrip models Python str.strip() (whitespace at both ends). -/
def pyStrip (s : PyStr) : PyStr :=
  ((s.dropWhile isSpaceChar).reverse.dropWhile isSpaceChar).reverse

/-- pyStripChar models Python str.strip(c) for a single character c. -/
def pyStripChar (c : Char) (s : PyStr) : PyStr :=
  ((s.dropWhile (· == c)).reverse.dropWhile (· == c)).reverse

/-- pySlice models the Python slice s[:k], including negative k. -/
def pySlice (s : PyStr) (k : Int) : PyStr :=
  if 0 ≤ k then s.take k.toNat else s.take (s.length - k.natAbs)

/-- pySplitChar models Python str.split(sep) for a one-character separator:
the result is always nonempty and empty fields are kept. -/
def pySplitChar (sep : Char) : PyStr → List PyStr
  | [] => [[]]
  | c :: rest =>
    match pySplitChar sep rest with
    | [] => [[c]]
    | s :: ss => if c = sep then [] :: s :: ss else (c :: s) :: ss

/-- pyReplaceAux is the fuel-driven worker for pyReplace; fuel bounds the
number of characters still to be consumed. -/
def pyReplaceAux (pat rep : PyStr) : Nat → PyStr → PyStr
  | 0, s => s
  | _ + 1, [] => []
  | fuel + 1, c :: rest =>
    if !pat.isEmpty && pat.isPrefixOf (c :: rest) then
      rep ++ pyReplaceAux pat rep fuel ((c :: rest).drop pat.length)
    else
      c :: pyReplaceAux pat rep fuel rest

/-- pyReplace models Python str.replace(pat, rep) for a nonempty pattern
(every use in the source has a nonempty pattern). -/
def pyReplace (pat rep s : PyStr) : PyStr := pyReplaceAux pat rep s.length s

/-- splitOnce finds the first occurrence of pat in s and returns the text
before and after it, or none when pat does not occur. -/
def splitOnce (pat : PyStr) : PyStr → Option (PyStr × PyStr)
  | [] => if pat.isEmpty then some ([], []) else none
  | c :: rest =>
    if pat.isPrefixOf (c :: rest) then some ([], (c :: rest).drop pat.length)
    else
      match splitOnce pat rest with
      | some (before, after) => some (c :: before, after)
      | none => none

/-- digitChar is the decimal digit character for d < 10. -/
def digitChar (d : Nat) : Char := Char.ofNat (48 + d)

/-- natDecimalAux is the fuel-driven decimal renderer behind natDecimal. -/
def natDecimalAux : Nat → Nat → PyStr → PyStr
  | 0, _, acc => acc
  | fuel + 1, n, acc =>
    if n < 10 then digitChar n :: acc
    else natDecimalAux fuel (n / 10) (digitChar (n % 10) :: acc)

/-- natDecimal models the Python decimal rendering str(n) of a nonnegative
int, as used by the f-strings of the source. -/
def natDecimal (n : Nat) : PyStr := natDecimalAux (n + 1) n []

-- ── File Storage constants (src/core/capture.py lines 35-46) ─────────────

def MAX_FILENAME_LENGTH : Nat := 200

def ALLOWED_EVIDENCE_TYPES : List PyStr :=
  [pyStr "screenshot", pyStr "document", pyStr "page_archive",
   pyStr "video", pyStr "other"]

def ALLOWED_UPLOAD_EXTENSIONS : List PyStr :=
  [pyStr ".png", pyStr ".jpg", pyStr ".jpeg", pyStr ".gif", pyStr ".webp",
   pyStr ".svg",
   pyStr ".pdf", pyStr ".doc", pyStr ".docx", pyStr ".xls", pyStr ".xlsx",
   pyStr ".html", pyStr ".htm", pyStr ".mhtml",
   pyStr ".mp4", pyStr ".mov", pyStr ".webm",
   pyStr ".json", pyStr ".csv", pyStr ".txt", pyStr ".md"]

/-- MAX_UPLOAD_SIZE is the 50 MiB cap on uploads and document downloads. -/
def MAX_UPLOAD_SIZE : Nat := 50 * 1024 * 1024

-- ── Filename helpers (src/core/capture.py lines 49-74) ───────────────────

/-- isWordChar models the ASCII part of the regex class backslash-w. -/
def isWordChar (c : Char) : Bool := c.isAlphanum || c == '_'

/-- isCollapseChar recognises the characters collapsed to a hyphen by the
second regex substitution of slugify. -/
def isCollapseChar (c : Char) : Bool := isSpaceChar c || c == '_' || c == '-'

/-- collapseAux rewrites each maximal run of collapse characters to a single
hyphen; the flag records whether the previous character was in a run. -/
def collapseAux : Bool → PyStr → PyStr
  | _, [] => []
  | inRun, c :: rest =>
    if isCollapseChar c then
      (if inRun then [] else ['-']) ++ collapseAux true rest
    else c :: collapseAux false rest

/-- slugify models the source function _slugify: lowercase and strip, delete
characters outside word/space/hyphen, collapse space/underscore/hyphen runs
to a hyphen, truncate to 80, defaulting to the text unnamed when empty. -/
def slugify (text : PyStr) : PyStr :=
  let t := pyStrip (pyLower text)
  let t := t.filter (fun c => isWordChar c || isSpaceChar c || c == '-')
  let t := collapseAux false t
  let t := t.take 80
  if t.isEmpty then pyStr "unnamed" else t

/-- urlparseNetlocPath models urllib.parse.urlparse restricted to the URL
shapes the capture engine receives (scheme://netloc/path, no query or
fragment): it returns the netloc and path fields. -/
def urlparseNetlocPath (u : PyStr) : PyStr × PyStr :=
  match splitOnce (pyStr "://") u with
  | none => ([], u)
  | some (_, after) =>
    (after.takeWhile (fun c => !(c == '/')), after.dropWhile (fun c => !(c == '/')))

/-- url_to_filename models the source function _url_to_filename. -/
def url_to_filename (url : PyStr) : PyStr :=
  let parsed := urlparseNetlocPath url
  let domain := pyReplace (pyStr ":") (pyStr "-") (pyReplace (pyStr "www.") [] parsed.1)
  let path := pyReplace (pyStr "/") (pyStr "_") (pyStripChar '/' parsed.2)
  let slug := slugify (if !path.isEmpty then domain ++ pyStr "_" ++ path else domain)
  slug.take 100

/-- generate_filename models the source function _generate_filename.  The
timestamp ts (from datetime.now) and the 8-character hash sfx (from the md5
of clock and thread id) are nondeterministic inputs of the Python code and
are therefore passed as explicit arguments here. -/
def generate_filename (pre extension ts sfx : PyStr) : PyStr :=
  let name := pre ++ pyStr "_" ++ ts ++ pyStr "_" ++ sfx ++ extension
  if MAX_FILENAME_LENGTH < name.length then
    pySlice name ((MAX_FILENAME_LENGTH : Int) - (extension.length : Int)) ++ extension
  else name

-- ── Evidence paths (src/core/capture.py lines 86-101) ────────────────────

/-- evidence_path_relative models the source function of the same name: the
relative path project/entity/type/filename stored in the database. -/
def evidence_path_relative (project_id entity_id : Nat)
    (evidence_type filename : PyStr) : PyStr :=
  natDecimal project_id ++ pyStr "/" ++ natDecimal entity_id ++ pyStr "/" ++
    evidence_type ++ pyStr "/" ++ filename

/-- pathParts models pathlib component splitting: empty components and
single-dot components are dropped, double-dot components are kept. -/
def pathParts (s : PyStr) : List PyStr :=
  (pySplitChar '/' s).filter (fun c => !c.isEmpty && !(c == pyStr "."))

/-- resolveParts models the lexical part of Path.resolve(): double-dot
components pop the previous component and, at the root, stay at the root.
Symlink resolution, which resolve() also performs, is outside this model
(no symlinks are assumed under the evidence root). -/
def resolveParts (acc : List PyStr) : List PyStr → List PyStr
  | [] => acc
  | c :: rest =>
    if c = pyStr ".." then resolveParts acc.dropLast rest
    else resolveParts (acc ++ [c]) rest

/-- evidence_path_absolute models the source function of the same name.  The
evidence root EVIDENCE_DIR is abstracted as its component list base; the
result is the component list of the resolved absolute path, or the raised
ValueError message.  Joining with pathlib replaces the base entirely when
the relative path is absolute. -/
def evidence_path_absolute (base : List PyStr) (relative_path : PyStr) :
    Except PyStr (List PyStr) :=
  let baseResolved := resolveParts [] base
  let joined :=
    if relative_path.head? == some '/' then pathParts relative_path
    else base ++ pathParts relative_path
  let target := resolveParts [] joined
  if baseResolved.isPrefixOf target then .ok target
  else .error (pyStr "Path traversal detected")

-- ── Upload validation and evidence types (lines 151-185) ─────────────────

/-- pathName models pathlib PurePosixPath(s).name: the final path component,
with trailing slashes stripped. -/
def pathName (s : PyStr) : PyStr :=
  let t := (s.reverse.dropWhile (· == '/')).reverse
  (t.reverse.takeWhile (fun c => !(c == '/'))).reverse

/-- pathSuffix models pathlib Path(s).suffix: the part of the final
component from its last dot, provided that dot is neither the first nor the
last character of the component. -/
def pathSuffix (s : PyStr) : PyStr :=
  let base := pathName s
  let afterDot := base.reverse.takeWhile (fun c => !(c == '.'))
  if afterDot.length = base.length then []
  else
    let i := base.length - afterDot.length - 1
    if 0 < i ∧ i < base.length - 1 then base.drop i else []

/-- sortedExtensionList is the sorted comma-join of the allowed extensions,
precomputed, as interpolated into the rejection message of validate_upload. -/
def sortedExtensionList : PyStr :=
  pyStr (".csv, .doc, .docx, .gif, .htm, .html, .jpeg, .jpg, .json, .md, " ++
    ".mhtml, .mov, .mp4, .pdf, .png, .svg, .txt, .webm, .webp, .xls, .xlsx")

/-- fmtMB1 approximates the Python rendering of size/1024/1024 with format
.1f by integer arithmetic in tenths of a MiB (the round-half-even step of
the float formatting is not modeled; no claim depends on the digits). -/
def fmtMB1 (size : Nat) : PyStr :=
  let tenths := size * 10 / (1024 * 1024)
  natDecimal (tenths / 10) ++ pyStr "." ++ natDecimal (tenths % 10)

/-- validate_upload models the source function of the same name, the single
gate for externally supplied bytes: it returns the validity flag and the
rejection reason. -/
def validate_upload (filename : PyStr) (size : Nat) : Bool × PyStr :=
  if filename.isEmpty then (false, pyStr "No filename provided")
  else
    let ext := pyLower (pathSuffix filename)
    if !(ALLOWED_UPLOAD_EXTENSIONS.contains ext) then
      (false, pyStr "File type \x27" ++ ext ++
        pyStr "\x27 not allowed. Allowed: " ++ sortedExtensionList)
    else if MAX_UPLOAD_SIZE < size then
      (false, pyStr "File too large (" ++ fmtMB1 size ++
        pyStr " MB). Maximum: 50 MB")
    else if size = 0 then (false, pyStr "Empty file")
    else (true, [])

/-- guess_evidence_type models the source function of the same name. -/
def guess_evidence_type (filename : PyStr) : PyStr :=
  let ext := pyLower (pathSuffix filename)
  if [pyStr ".png", pyStr ".jpg", pyStr ".jpeg", pyStr ".gif", pyStr ".webp",
      pyStr ".svg"].contains ext then pyStr "screenshot"
  else if [pyStr ".pdf", pyStr ".doc", pyStr ".docx", pyStr ".xls",
      pyStr ".xlsx", pyStr ".csv", pyStr ".txt", pyStr ".md",
      pyStr ".json"].contains ext then pyStr "document"
  else if [pyStr ".html", pyStr ".htm", pyStr ".mhtml"].contains ext then
    pyStr "page_archive"
  else if [pyStr ".mp4", pyStr ".mov", pyStr ".webm"].contains ext then
    pyStr "video"
  else pyStr "other"

/-- type_from_path models the source function _type_from_path: component
three of the relative path when it has at least three components, else a
guess from the extension. -/
def type_from_path (relative_path : PyStr) : PyStr :=
  match pySplitChar '/' relative_path with
  | _ :: _ :: t :: _ => t
  | _ => guess_evidence_type relative_path

-- ── Capture results (src/core/capture.py lines 190-202) ──────────────────

/-- MetaVal is one value of the metadata dict of a CaptureResult. -/
inductive MetaVal where
  | nat (n : Nat)
  | str (s : PyStr)
  | bool (b : Bool)
deriving DecidableEq, Repr

/-- CaptureResult models the dataclass of the same name; the metadata dict
is embedded as its insertion-ordered key/value list, and byte counts stand
in for byte blobs. -/
structure CaptureResult where
  success : Bool
  url : PyStr
  evidence_paths : List PyStr := []
  evidence_ids : List Nat := []
  error : Option PyStr := none
  metadata : List (PyStr × MetaVal) := []
  duration_ms : Nat := 0
deriving DecidableEq, Repr

-- ── Browser pool (src/core/scraper.py lines 50-99) ───────────────────────

/-- BROWSER_MAX_AGE is the pool TTL in seconds. -/
def BROWSER_MAX_AGE : Nat := 300

/-- BrowserHandle models one pooled (playwright, browser, created_at) entry:
pid identifies the underlying browser process and driver connection. -/
structure BrowserHandle where
  pid : Nat
  created_at : Nat
deriving DecidableEq, Repr

/-- Pool models the module-level dict _browser_instances, keyed by the
worker thread id. -/
abbrev Pool := List (Nat × BrowserHandle)

/-- poolLookup models dict .get on the pool. -/
def poolLookup (pool : Pool) (tid : Nat) : Option BrowserHandle :=
  match pool.find? (fun p => p.1 == tid) with
  | some p => some p.2
  | none => none

/-- poolErase models dict .pop on the pool. -/
def poolErase (pool : Pool) (tid : Nat) : Pool :=
  pool.filter (fun p => !(p.1 == tid))

/-- poolInsert models dict assignment on the pool. -/
def poolInsert (pool : Pool) (tid : Nat) (h : BrowserHandle) : Pool :=
  poolErase pool tid ++ [(tid, h)]

/-- AcquireResult is the observable outcome of one _get_browser call: the
handle given to the caller, the pool afterwards, the handles passed to the
best-effort close, and whether a fresh browser was launched. -/
structure AcquireResult where
  handle : BrowserHandle
  pool : Pool
  closed : List BrowserHandle
  launched : Bool
deriving DecidableEq, Repr

/-- get_browser models the source function _get_browser.  The driver is
abstracted by the connected predicate (is_connected per process), the clock
by now (seconds), and the launch by the fresh process id fresh_pid;
launch failure propagates as an exception at the call site and is modeled
there (PageEnv.launch). -/
def get_browser (connected : Nat → Bool) (now fresh_pid : Nat)
    (pool : Pool) (tid : Nat) : AcquireResult :=
  match poolLookup pool tid with
  | some h =>
    if connected h.pid && decide (now - h.created_at < BROWSER_MAX_AGE) then
      { handle := h, pool := pool, closed := [], launched := false }
    else
      let fresh : BrowserHandle := { pid := fresh_pid, created_at := now }
      { handle := fresh, pool := poolInsert (poolErase pool tid) tid fresh,
        closed := [h], launched := true }
  | none =>
    let fresh : BrowserHandle := { pid := fresh_pid, created_at := now }
    { handle := fresh, pool := poolInsert pool tid fresh,
      closed := [], launched := true }

-- ── Website capture session (src/core/capture.py lines 211-343) ──────────

/-- PageEnv records the outcome of each driver call a capture session makes,
in program order: a field is .ok for a normal return and .error e when the
call raised an exception with message e.  Byte blobs (screenshot, encoded
html) are represented by their sizes; the goto field carries the response
(none models a null response) with its HTTP status and the final page URL.
The nondeterministic timestamp/hash inputs of the two generated filenames
and the measured elapsed milliseconds are included as env data. -/
structure PageEnv where
  launch : Except PyStr Unit
  new_context : Except PyStr Unit
  new_page : Except PyStr Unit
  goto : Except PyStr (Option Nat × PyStr)
  wait_for_timeout : Except PyStr Unit
  title : Except PyStr PyStr
  screenshot : Except PyStr Nat
  evaluate : Except PyStr (Nat × Nat)
  content : Except PyStr Nat
  ts1 : PyStr
  sfx1 : PyStr
  ts2 : PyStr
  sfx2 : PyStr
  elapsed : Nat
deriving DecidableEq, Repr

/-- failUrlResult builds the CaptureResult returned by the except handler of
_capture_website_async (source lines 335-341).  Note that the handler passes
the metadata accumulated so far but not the evidence_paths accumulated so
far, which therefore stay at their empty default. -/
def failUrlResult (url e : PyStr) (metadata : List (PyStr × MetaVal))
    (elapsed : Nat) : CaptureResult :=
  { success := false, url := url, error := some e, metadata := metadata,
    duration_ms := elapsed }

/-- capture_website_async models the coroutine _capture_website_async.  The
first component of the result lists the relative paths written to disk by
store_file; the second is the CaptureResult returned, or .error e when an
exception escapes the coroutine (raised outside the try block that guards
the session body). -/
def capture_website_async (env : PageEnv) (url : PyStr)
    (project_id entity_id : Nat) (full_page : Bool)
    (viewport_width viewport_height : Nat) (save_html : Bool) :
    List PyStr × Except PyStr CaptureResult :=
  match env.launch with
  | .error e =>
    ([], .ok { success := false, url := url,
               error := some (pyStr "Browser launch failed: " ++ e),
               duration_ms := env.elapsed })
  | .ok _ =>
  -- new_context, set_default_timeout and new_page run outside the try block
  match env.new_context with
  | .error e => ([], .error e)
  | .ok _ =>
  match env.new_page with
  | .error e => ([], .error e)
  | .ok _ =>
  let metadata : List (PyStr × MetaVal) :=
    [(pyStr "viewport_width", .nat viewport_width),
     (pyStr "viewport_height", .nat viewport_height),
     (pyStr "full_page", .bool full_page)]
  match env.goto with
  | .error e => ([], .ok (failUrlResult url e metadata env.elapsed))
  | .ok (response, final_url) =>
  let status_code := response.getD 0
  let metadata := metadata ++
    [(pyStr "status_code", .nat status_code),
     (pyStr "final_url", .str final_url)]
  if 400 ≤ status_code then
    ([], .ok (failUrlResult url (pyStr "HTTP " ++ natDecimal status_code)
              metadata env.elapsed))
  else
  match env.wait_for_timeout with
  | .error e => ([], .ok (failUrlResult url e metadata env.elapsed))
  | .ok _ =>
  match env.title with
  | .error e => ([], .ok (failUrlResult url e metadata env.elapsed))
  | .ok title =>
  let metadata := metadata ++ [(pyStr "title", .str title)]
  let url_slug := url_to_filename url
  let screenshot_name := generate_filename url_slug (pyStr ".png") env.ts1 env.sfx1
  match env.screenshot with
  | .error e => ([], .ok (failUrlResult url e metadata env.elapsed))
  | .ok screenshot_size =>
  let metadata := metadata ++ [(pyStr "screenshot_size", .nat screenshot_size)]
  match env.evaluate with
  | .error e => ([], .ok (failUrlResult url e metadata env.elapsed))
  | .ok dimensions =>
  let metadata := metadata ++
    [(pyStr "page_width", .nat dimensions.1),
     (pyStr "page_height", .nat dimensions.2)]
  let screenshot_path :=
    evidence_path_relative project_id entity_id (pyStr "screenshot") screenshot_name
  let stored := [screenshot_path]
  let evidence_paths := [(pyStr "screenshot", screenshot_path)]
  if save_html then
    match env.content with
    | .error e => (stored, .ok (failUrlResult url e metadata env.elapsed))
    | .ok html_size =>
      let metadata := metadata ++ [(pyStr "html_size", .nat html_size)]
      let html_name := generate_filename url_slug (pyStr ".html") env.ts2 env.sfx2
      let html_path :=
        evidence_path_relative project_id entity_id (pyStr "page_archive") html_name
      let stored := stored ++ [html_path]
      let evidence_paths := evidence_paths ++ [(pyStr "page_archive", html_path)]
      (stored, .ok { success := true, url := url,
                     evidence_paths := evidence_paths.map Prod.snd,
                     metadata := metadata, duration_ms := env.elapsed })
  else
    (stored, .ok { success := true, url := url,
                   evidence_paths := evidence_paths.map Prod.snd,
                   metadata := metadata, duration_ms := env.elapsed })

/-- deadlineError is the error text of the outer-deadline failure result of
capture_website; the .0f float rendering of the deadline in seconds is
modeled by integer division, exact for the millisecond timeouts the
repository uses (multiples of 1000). -/
def deadlineError (timeout_ms : Nat) : PyStr :=
  pyStr "Capture deadline exceeded (" ++ natDecimal (timeout_ms * 2 / 1000) ++ pyStr "s)"

/-- capture_website models the synchronous wrapper of the same name.  The
wall-clock duration of the async session is wall_ms: when it exceeds the
outer deadline of twice timeout_ms, asyncio.wait_for raises TimeoutError,
the only exception the wrapper catches.  The optional database is modeled
by its add_evidence method, abstracted as an id assignment per stored
(evidence_type, file_path) record. -/
def capture_website (env : PageEnv) (url : PyStr)
    (project_id entity_id : Nat) (full_page : Bool)
    (viewport_width viewport_height : Nat) (timeout_ms : Nat)
    (save_html : Bool) (wall_ms : Nat)
    (db : Option (PyStr → PyStr → Nat)) : Except PyStr CaptureResult :=
  if timeout_ms * 2 < wall_ms then
    .ok { success := false, url := url, error := some (deadlineError timeout_ms) }
  else
    match (capture_website_async env url project_id entity_id full_page
            viewport_width viewport_height save_html).2 with
    | .error e => .error e
    | .ok result =>
      match db with
      | some add_evidence =>
        if result.success then
          let ids := result.evidence_paths.map (fun p => add_evidence (type_from_path p) p)
          .ok { result with evidence_ids := ids }
        else .ok result
      | none => .ok result

-- ── Document capture (src/core/capture.py lines 415-521) ─────────────────

/-- contentTypeMap is the ct_map dict of _content_type_to_ext. -/
def contentTypeMap : List (PyStr × PyStr) :=
  [(pyStr "application/pdf", pyStr ".pdf"),
   (pyStr "text/html", pyStr ".html"),
   (pyStr "text/plain", pyStr ".txt"),
   (pyStr "application/json", pyStr ".json"),
   (pyStr "text/csv", pyStr ".csv"),
   (pyStr "application/vnd.openxmlformats-officedocument.wordprocessingml.document",
    pyStr ".docx"),
   (pyStr "application/vnd.openxmlformats-officedocument.spreadsheetml.sheet",
    pyStr ".xlsx"),
   (pyStr "image/png", pyStr ".png"),
   (pyStr "image/jpeg", pyStr ".jpg"),
   (pyStr "image/gif", pyStr ".gif"),
   (pyStr "image/webp", pyStr ".webp")]

/-- content_type_to_ext models the source function _content_type_to_ext. -/
def content_type_to_ext (content_type url : PyStr) : PyStr :=
  let ct := pyLower (pyStrip ((pySplitChar ';' content_type).headD []))
  match (contentTypeMap.find? (fun p => p.1 == ct)) with
  | some p => p.2
  | none =>
    let parsed := urlparseNetlocPath url
    let path_ext := pyLower (pathSuffix parsed.2)
    if ALLOWED_UPLOAD_EXTENSIONS.contains path_ext then path_ext
    else pyStr ".bin"

/-- HttpResponse models the requests response observed by capture_document:
the HTTP status, the Content-Type header (empty when absent), and the body
represented by its length in bytes. -/
structure HttpResponse where
  status_code : Nat
  content_type : PyStr
  body_len : Nat
deriving DecidableEq, Repr

/-- DocEnv records the outcome of the requests.get call of capture_document
(.error e for a raised network exception), the text of the HTTPError that
raise_for_status raises on a status of 400 or more, the nondeterministic
timestamp/hash of the generated filename, and the measured duration. -/
structure DocEnv where
  response : Except PyStr HttpResponse
  http_error : PyStr
  ts : PyStr
  sfx : PyStr
  elapsed : Nat
deriving DecidableEq, Repr

/-- DocOutcome is the observable outcome of capture_document: buffered is
the number of body bytes held in memory by reading resp.content, stored the
relative paths written to disk, and result the returned CaptureResult. -/
structure DocOutcome where
  buffered : Nat
  stored : List PyStr
  result : CaptureResult
deriving DecidableEq, Repr

/-- capture_document models the source function of the same name.  Reading
resp.content buffers the entire response body before any size comparison;
the model exposes that count in the buffered field. -/
def capture_document (env : DocEnv) (url : PyStr)
    (project_id entity_id : Nat) (db : Option (PyStr → PyStr → Nat)) :
    DocOutcome :=
  match env.response with
  | .error e =>
    { buffered := 0, stored := [],
      result := { success := false, url := url,
                  error := some (pyStr "Download failed: " ++ e),
                  duration_ms := env.elapsed } }
  | .ok resp =>
    if 400 ≤ resp.status_code then
      -- resp.raise_for_status() raises HTTPError, caught by the same handler
      { buffered := 0, stored := [],
        result := { success := false, url := url,
                    error := some (pyStr "Download failed: " ++ env.http_error),
                    duration_ms := env.elapsed } }
    else
      let metadata : List (PyStr × MetaVal) :=
        [(pyStr "source_url", .str url),
         (pyStr "content_type", .str resp.content_type),
         (pyStr "status_code", .nat resp.status_code)]
      let ext := content_type_to_ext resp.content_type url
      let evidence_type := guess_evidence_type (pyStr "file" ++ ext)
      -- content = resp.content reads the whole body into memory
      let buffered := resp.body_len
      if MAX_UPLOAD_SIZE < resp.body_len then
        { buffered := buffered, stored := [],
          result := { success := false, url := url,
                      error := some (pyStr "Document too large (" ++
                        fmtMB1 resp.body_len ++ pyStr " MB)"),
                      duration_ms := env.elapsed } }
      else
        let metadata := metadata ++ [(pyStr "file_size", .nat resp.body_len)]
        let url_slug := url_to_filename url
        let filename := generate_filename url_slug ext env.ts env.sfx
        let relative_path :=
          evidence_path_relative project_id entity_id evidence_type filename
        let result : CaptureResult :=
          { success := true, url := url, evidence_paths := [relative_path],
            metadata := metadata, duration_ms := env.elapsed }
        match db with
        | some add_evidence =>
          { buffered := buffered, stored := [relative_path],
            result := { result with
              evidence_ids := [add_evidence evidence_type relative_path] } }
        | none =>
          { buffered := buffered, stored := [relative_path], result := result }

-- ── Concrete instances used by witnesses and counterexamples ─────────────

/-- evidenceBase is a concrete evidence root, as a component list. -/
def evidenceBase : List PyStr := [pyStr "data", pyStr "evidence"]

/-- envAllOk is a session environment in which every driver call succeeds. -/
def envAllOk : PageEnv :=
  { launch := .ok (), new_context := .ok (), new_page := .ok (),
    goto := .ok (some 200, pyStr "https://example.com/"),
    wait_for_timeout := .ok (), title := .ok (pyStr "Example Domain"),
    screenshot := .ok 1000, evaluate := .ok (1440, 2000),
    content := .ok 5000,
    ts1 := pyStr "20260101_120000", sfx1 := pyStr "deadbeef",
    ts2 := pyStr "20260101_120001", sfx2 := pyStr "cafebabe",
    elapsed := 1234 }

/-- envHtmlFail is a session in which the screenshot succeeds and the later
HTML serialization raises a timeout. -/
def envHtmlFail : PageEnv :=
  { envAllOk with content := .error (pyStr "Timeout 30000ms exceeded") }

/-- envCtxBoom is a session in which opening the browser context raises a
driver-level exception. -/
def envCtxBoom : PageEnv :=
  { envAllOk with new_context := .error (pyStr "boom") }

/-- env404 is a session whose navigation returns HTTP 404. -/
def env404 : PageEnv :=
  { envAllOk with goto := .ok (some 404, pyStr "https://example.com/missing") }

/-- denvBig is a document download whose body is twice the size cap. -/
def denvBig : DocEnv :=
  { response := .ok { status_code := 200,
                      content_type := pyStr "application/pdf",
                      body_len := 2 * MAX_UPLOAD_SIZE },
    http_error := [], ts := pyStr "20260101_120000",
    sfx := pyStr "deadbeef", elapsed := 5 }

/-- connAll is a driver in which every pooled browser reports connected. -/
def connAll : Nat → Bool := fun _ => true

/-- poolOne is a pool with one handle for worker 1, created at time 50. -/
def poolOne : Pool := [(1, { pid := 10, created_at := 50 })]

/-- longPrefix is a 200-character filename stem used to force truncation. -/
def longPrefix : PyStr := List.replicate 200 'a'

-- ═══════════════════════ Theorems ═══════════════════════

-- ── Helper lemmas ────────────────────────────────────────────────────────

theorem suffix_of_append {α} (x s t : List α) (h : x <:+ t) : x <:+ s ++ t :=
  h.trans (List.suffix_append s t)

theorem pySplitChar_ne_nil (sep : Char) (s : PyStr) : pySplitChar sep s ≠ [] := by
  induction s with
  | nil => simp [pySplitChar]
  | cons c rest ih =>
    simp only [pySplitChar]
    split
    · simp
    · split <;> simp

theorem pySplitChar_append (sep : Char) (a b : PyStr) (ha : ¬ sep ∈ a) :
    pySplitChar sep (a ++ sep :: b) = a :: pySplitChar sep b := by
  induction a with
  | nil =>
    simp only [List.nil_append, pySplitChar]
    cases h : pySplitChar sep b with
    | nil => exact absurd h (pySplitChar_ne_nil sep b)
    | cons x xs => simp
  | cons c a' ih =>
    have hc : ¬ c = sep := fun hcs => ha (hcs ▸ List.mem_cons_self c a')
    have ha' : ¬ sep ∈ a' := fun hm => ha (List.mem_cons_of_mem c hm)
    show pySplitChar sep (c :: (a' ++ sep :: b)) = (c :: a') :: pySplitChar sep b
    simp only [pySplitChar]
    rw [ih ha']
    simp [hc]

theorem digitChar_ne_slash : ∀ d, d < 10 → digitChar d ≠ '/' := by decide

theorem natDecimalAux_no_slash (fuel : Nat) : ∀ (n : Nat) (acc : PyStr),
    ¬ '/' ∈ acc → ¬ '/' ∈ natDecimalAux fuel n acc := by
  induction fuel with
  | zero => intro n acc h; simpa [natDecimalAux] using h
  | succ fuel ih =>
    intro n acc h
    simp only [natDecimalAux]
    split
    · intro hmem
      rcases List.mem_cons.mp hmem with heq | hmem
      · exact digitChar_ne_slash n (by omega) heq.symm
      · exact h hmem
    · refine ih (n / 10) (digitChar (n % 10) :: acc) ?_
      intro hmem
      rcases List.mem_cons.mp hmem with heq | hmem
      · exact digitChar_ne_slash (n % 10) (Nat.mod_lt n (by omega)) heq.symm
      · exact h hmem

theorem natDecimal_no_slash (n : Nat) : ¬ '/' ∈ natDecimal n :=
  natDecimalAux_no_slash (n + 1) n [] (by simp)

-- ── C3: path-traversal safety of evidence_path_absolute ──────────────────

/-- C3 (corrected part): the claim says every relative path containing a
double-dot component is rejected; in the code only paths whose resolution
departs the evidence root are rejected, and a/../b, which contains such a
component yet resolves inside the root, is accepted. -/
theorem evidence_path_absolute_dotdot_cx :
    (pyStr ".." ∈ pathParts (pyStr "a/../b")) ∧
    evidence_path_absolute evidenceBase (pyStr "a/../b") =
      .ok [pyStr "data", pyStr "evidence", pyStr "b"] := by decide

theorem evidence_path_absolute_eq (base : List PyStr) (relative_path : PyStr) :
    evidence_path_absolute base relative_path =
      (if (resolveParts [] base).isPrefixOf (resolveParts []
            (if relative_path.head? == some '/' then pathParts relative_path
             else base ++ pathParts relative_path)) then
        .ok (resolveParts []
            (if relative_path.head? == some '/' then pathParts relative_path
             else base ++ pathParts relative_path))
      else .error (pyStr "Path traversal detected")) := rfl

/-- C3 (amended): evidence_path_absolute rejects a relative path exactly
when its lexical resolution departs the evidence root, and the resolved
absolute path of every accepted relative path descends from the root. -/
theorem evidence_path_absolute_safe (base : List PyStr) (relative_path : PyStr) :
    (∀ target, evidence_path_absolute base relative_path = .ok target →
      (resolveParts [] base).isPrefixOf target = true) ∧
    ((∃ e, evidence_path_absolute base relative_path = .error e) ↔
      (resolveParts [] base).isPrefixOf (resolveParts []
        (if relative_path.head? == some '/' then pathParts relative_path
         else base ++ pathParts relative_path)) = false) := by
  constructor
  · intro target h
    rw [evidence_path_absolute_eq] at h
    generalize (if relative_path.head? == some '/' then pathParts relative_path
      else base ++ pathParts relative_path) = J at h
    by_cases hp : (resolveParts [] base).isPrefixOf (resolveParts [] J) = true
    · rw [if_pos hp] at h
      injection h with h
      exact h ▸ hp
    · rw [if_neg hp] at h
      cases h
  · rw [evidence_path_absolute_eq]
    generalize (if relative_path.head? == some '/' then pathParts relative_path
      else base ++ pathParts relative_path) = J
    by_cases hp : (resolveParts [] base).isPrefixOf (resolveParts [] J) = true
    · rw [if_pos hp]
      simp [hp]
    · rw [if_neg hp]
      simp only [Bool.not_eq_true] at hp
      simp [hp]

/-- Witness for evidence_path_absolute_safe at a concrete base and path. -/
theorem evidence_path_absolute_safe_witness :
    (resolveParts [] evidenceBase).isPrefixOf
      [pyStr "data", pyStr "evidence", pyStr "b"] = true :=
  (evidence_path_absolute_safe evidenceBase (pyStr "a/../b")).1 _ (by decide)

-- ── C4: filename truncation of generate_filename ─────────────────────────

set_option maxRecDepth 40000 in
/-- C4 (corrected part): the claim says truncation trims only the filename
stem and never the hash suffix; on a 200-character stem the code keeps the
first 196 characters plus the extension, so the timestamp and hash suffix
are cut and no decomposition stem-timestamp-hash-extension remains. -/
theorem generate_filename_truncation_cx :
    generate_filename longPrefix (pyStr ".png")
      (pyStr "20260101_120000") (pyStr "deadbeef") =
      List.replicate 196 'a' ++ pyStr ".png" ∧
    ¬ ∃ k, generate_filename longPrefix (pyStr ".png")
      (pyStr "20260101_120000") (pyStr "deadbeef") =
      List.replicate k 'a' ++ pyStr "_20260101_120000_deadbeef.png" := by
  constructor
  · decide
  · rintro ⟨k, hk⟩
    have hlen := congrArg List.length hk
    have h200 : (generate_filename longPrefix (pyStr ".png")
        (pyStr "20260101_120000") (pyStr "deadbeef")).length = 200 := by decide
    have h29 : (pyStr "_20260101_120000_deadbeef.png").length = 29 := by decide
    rw [h200, List.length_append, List.length_replicate, h29] at hlen
    have hk171 : k = 171 := by omega
    subst hk171
    exact absurd hk (by decide)

/-- C4 (amended): generate_filename assembles stem, timestamp, hash suffix
and extension; when the assembled name exceeds MAX_FILENAME_LENGTH the code
keeps the leading MAX_FILENAME_LENGTH minus extension-length characters plus
the extension, trimming from the end of the base name (hash suffix first),
and the extension itself is always preserved as a suffix. -/
theorem generate_filename_eq (pre extension ts sfx : PyStr) :
    generate_filename pre extension ts sfx =
      (if MAX_FILENAME_LENGTH <
          (pre ++ pyStr "_" ++ ts ++ pyStr "_" ++ sfx ++ extension).length then
        pySlice (pre ++ pyStr "_" ++ ts ++ pyStr "_" ++ sfx ++ extension)
          ((MAX_FILENAME_LENGTH : Int) - (extension.length : Int)) ++ extension
      else pre ++ pyStr "_" ++ ts ++ pyStr "_" ++ sfx ++ extension) := rfl

theorem generate_filename_truncation (pre extension ts sfx : PyStr)
    (hext : extension.length ≤ MAX_FILENAME_LENGTH) :
    ((pre ++ pyStr "_" ++ ts ++ pyStr "_" ++ sfx ++ extension).length ≤ MAX_FILENAME_LENGTH →
      generate_filename pre extension ts sfx =
        pre ++ pyStr "_" ++ ts ++ pyStr "_" ++ sfx ++ extension) ∧
    (MAX_FILENAME_LENGTH < (pre ++ pyStr "_" ++ ts ++ pyStr "_" ++ sfx ++ extension).length →
      generate_filename pre extension ts sfx =
        (pre ++ pyStr "_" ++ ts ++ pyStr "_" ++ sfx ++ extension).take
          (MAX_FILENAME_LENGTH - extension.length) ++ extension ∧
      (generate_filename pre extension ts sfx).length = MAX_FILENAME_LENGTH) ∧
    extension <:+ generate_filename pre extension ts sfx := by
  by_cases hgt : MAX_FILENAME_LENGTH <
      (pre ++ pyStr "_" ++ ts ++ pyStr "_" ++ sfx ++ extension).length
  · have hslice : pySlice (pre ++ pyStr "_" ++ ts ++ pyStr "_" ++ sfx ++ extension)
        ((MAX_FILENAME_LENGTH : Int) - (extension.length : Int)) =
        (pre ++ pyStr "_" ++ ts ++ pyStr "_" ++ sfx ++ extension).take
          (MAX_FILENAME_LENGTH - extension.length) := by
      unfold pySlice
      rw [if_pos (by omega)]
      congr 1
      omega
    have hval : generate_filename pre extension ts sfx =
        (pre ++ pyStr "_" ++ ts ++ pyStr "_" ++ sfx ++ extension).take
          (MAX_FILENAME_LENGTH - extension.length) ++ extension := by
      rw [generate_filename_eq, if_pos hgt, hslice]
    refine ⟨fun hle => absurd hgt (by omega), fun _ => ⟨hval, ?_⟩, ?_⟩
    · rw [hval, List.length_append, List.length_take]
      have hmin : min (MAX_FILENAME_LENGTH - extension.length)
          ((pre ++ pyStr "_" ++ ts ++ pyStr "_" ++ sfx ++ extension).length) =
          MAX_FILENAME_LENGTH - extension.length := by
        apply Nat.min_eq_left
        omega
      rw [hmin]
      omega
    · rw [hval]
      exact List.suffix_append _ extension
  · have hval : generate_filename pre extension ts sfx =
        pre ++ pyStr "_" ++ ts ++ pyStr "_" ++ sfx ++ extension := by
      rw [generate_filename_eq, if_neg hgt]
    refine ⟨fun _ => hval, fun hgt2 => absurd hgt2 hgt, ?_⟩
    rw [hval]
    exact List.suffix_append _ extension

-- ── C9: validate_upload gate ─────────────────────────────────────────────

/-- C9: validate_upload accepts exactly the nonempty filenames with an
allowed extension and a size in the interval from 1 to 50 MiB, rejects the
spec's concrete cases each with a nonempty reason, and accepts a one-byte
png file. -/
theorem validate_upload_spec :
    (∀ (filename : PyStr) (size : Nat),
      ((validate_upload filename size).1 = true ↔
        (filename ≠ [] ∧
         ALLOWED_UPLOAD_EXTENSIONS.contains (pyLower (pathSuffix filename)) = true ∧
         0 < size ∧ size ≤ MAX_UPLOAD_SIZE))) ∧
    ((validate_upload [] 1024).1 = false ∧ (validate_upload [] 1024).2 ≠ []) ∧
    ((validate_upload (pyStr "malware.exe") 1024).1 = false ∧
      (validate_upload (pyStr "malware.exe") 1024).2 ≠ []) ∧
    ((validate_upload (pyStr "empty.png") 0).1 = false ∧
      (validate_upload (pyStr "empty.png") 0).2 ≠ []) ∧
    ((validate_upload (pyStr "big.png") (MAX_UPLOAD_SIZE + 1)).1 = false ∧
      (validate_upload (pyStr "big.png") (MAX_UPLOAD_SIZE + 1)).2 ≠ []) ∧
    validate_upload (pyStr "a.png") 1 = (true, []) := by
  refine ⟨?_, by decide, by decide, by decide, by decide, by decide⟩
  intro filename size
  unfold validate_upload
  split_ifs with h1 h2 h3 h4 <;>
    simp_all [List.isEmpty_iff, MAX_UPLOAD_SIZE] <;>
    split_ifs <;> simp_all <;> omega

-- ── C10: path derivation and recovery round trip ─────────────────────────

/-- C10: recovering the evidence type from the derived relative path is a
left inverse of path derivation, for every allowed evidence type and every
filename without a slash. -/
theorem type_from_path_round_trip (project_id entity_id : Nat)
    (evidence_type filename : PyStr)
    (htype : evidence_type ∈ ALLOWED_EVIDENCE_TYPES)
    (hfile : ¬ '/' ∈ filename) :
    type_from_path
      (evidence_path_relative project_id entity_id evidence_type filename) =
      evidence_type := by
  have htyslash : ¬ '/' ∈ evidence_type := by
    fin_cases htype <;> decide
  have hsep : pyStr "/" = ['/'] := rfl
  have hsplit : pySplitChar '/'
      (evidence_path_relative project_id entity_id evidence_type filename) =
      natDecimal project_id :: natDecimal entity_id :: evidence_type ::
        pySplitChar '/' filename := by
    unfold evidence_path_relative
    rw [hsep]
    have hassoc : natDecimal project_id ++ ['/'] ++ natDecimal entity_id ++
        ['/'] ++ evidence_type ++ ['/'] ++ filename =
        natDecimal project_id ++ ('/' :: (natDecimal entity_id ++
          ('/' :: (evidence_type ++ ('/' :: filename))))) := by
      simp [List.append_assoc]
    rw [hassoc, pySplitChar_append _ _ _ (natDecimal_no_slash project_id),
        pySplitChar_append _ _ _ (natDecimal_no_slash entity_id),
        pySplitChar_append _ _ _ htyslash]
  unfold type_from_path
  rw [hsplit]

/-- Witness for type_from_path_round_trip at concrete ids and filename. -/
theorem type_from_path_round_trip_witness :
    type_from_path
      (evidence_path_relative 1 10 (pyStr "screenshot") (pyStr "img.png")) =
      pyStr "screenshot" :=
  type_from_path_round_trip 1 10 (pyStr "screenshot") (pyStr "img.png")
    (by decide) (by decide)

/-- Witness for generate_filename_truncation at a short stem. -/
theorem generate_filename_truncation_witness :
    generate_filename (pyStr "site") (pyStr ".png")
      (pyStr "20260101_120000") (pyStr "deadbeef") =
      pyStr "site" ++ pyStr "_" ++ pyStr "20260101_120000" ++ pyStr "_" ++
        pyStr "deadbeef" ++ pyStr ".png" :=
  (generate_filename_truncation (pyStr "site") (pyStr ".png")
      (pyStr "20260101_120000") (pyStr "deadbeef") (by decide)).1 (by decide)

-- ── Pool helper lemmas ───────────────────────────────────────────────────

theorem poolErase_keys_nodup (pool : Pool) (tid : Nat)
    (hnd : (pool.map Prod.fst).Nodup) :
    ((poolErase pool tid).map Prod.fst).Nodup :=
  List.Nodup.sublist (List.Sublist.map Prod.fst (List.filter_sublist pool)) hnd

theorem poolInsert_keys_nodup (pool : Pool) (tid : Nat) (h : BrowserHandle)
    (hnd : (pool.map Prod.fst).Nodup) :
    ((poolInsert pool tid h).map Prod.fst).Nodup := by
  unfold poolInsert
  rw [List.map_append]
  refine List.Nodup.append (poolErase_keys_nodup pool tid hnd) (by simp) ?_
  intro a ha ha'
  simp only [List.map_cons, List.map_nil, List.mem_singleton] at ha'
  subst ha'
  rcases List.mem_map.mp ha with ⟨p, hp, hpa⟩
  rcases List.mem_filter.mp hp with ⟨-, hcond⟩
  simp only [Bool.not_eq_true', beq_eq_false_iff_ne, ne_eq] at hcond
  exact hcond hpa

theorem keys_nodup_filter_le_one (pool : Pool) (w : Nat)
    (hnd : (pool.map Prod.fst).Nodup) :
    (pool.filter (fun p => p.1 == w)).length ≤ 1 := by
  induction pool with
  | nil => simp
  | cons q rest ih =>
    rw [List.map_cons, List.nodup_cons] at hnd
    by_cases hw : q.1 = w
    · have hrest : rest.filter (fun p => p.1 == w) = [] := by
        rw [List.filter_eq_nil_iff]
        intro p hp
        simp only [beq_iff_eq]
        intro hpw
        have hmem : p.1 ∈ rest.map Prod.fst := List.mem_map_of_mem Prod.fst hp
        rw [hpw, ← hw] at hmem
        exact hnd.1 hmem
      simp [List.filter_cons, hw, hrest]
    · simp only [List.filter_cons]
      rw [if_neg (by simpa using hw)]
      exact ih hnd.2

-- ── C6: browser pool acquire semantics ───────────────────────────────────

/-- C6: get_browser returns the pooled handle exactly when it is connected
and younger than the TTL; otherwise (stale, disconnected, or absent slot) it
best-effort-closes any old handle and launches a fresh browser stored under
the worker id; and the pool keeps at most one handle per worker. -/
theorem get_browser_spec (connected : Nat → Bool) (now fresh_pid : Nat)
    (pool : Pool) (tid : Nat)
    (hnd : (pool.map Prod.fst).Nodup) :
    (∀ h, poolLookup pool tid = some h →
      ((connected h.pid = true ∧ now - h.created_at < BROWSER_MAX_AGE) →
        get_browser connected now fresh_pid pool tid =
          { handle := h, pool := pool, closed := [], launched := false }) ∧
      (¬ (connected h.pid = true ∧ now - h.created_at < BROWSER_MAX_AGE) →
        get_browser connected now fresh_pid pool tid =
          { handle := { pid := fresh_pid, created_at := now },
            pool := poolInsert (poolErase pool tid) tid
                      { pid := fresh_pid, created_at := now },
            closed := [h], launched := true })) ∧
    (poolLookup pool tid = none →
      get_browser connected now fresh_pid pool tid =
        { handle := { pid := fresh_pid, created_at := now },
          pool := poolInsert pool tid { pid := fresh_pid, created_at := now },
          closed := [], launched := true }) ∧
    ((get_browser connected now fresh_pid pool tid).pool.map Prod.fst).Nodup ∧
    (∀ w, ((get_browser connected now fresh_pid pool tid).pool.filter
            (fun p => p.1 == w)).length ≤ 1) := by
  have hpool : ((get_browser connected now fresh_pid pool tid).pool.map Prod.fst).Nodup := by
    unfold get_browser
    cases hl : poolLookup pool tid with
    | none => exact poolInsert_keys_nodup pool tid _ hnd
    | some h =>
      dsimp only
      by_cases hcond :
          (connected h.pid && decide (now - h.created_at < BROWSER_MAX_AGE)) = true
      · rw [if_pos hcond]
        exact hnd
      · rw [if_neg hcond]
        exact poolInsert_keys_nodup _ tid _ (poolErase_keys_nodup pool tid hnd)
  refine ⟨?_, ?_, hpool, fun w => keys_nodup_filter_le_one _ w hpool⟩
  · intro h hl
    unfold get_browser
    rw [hl]
    dsimp only
    constructor
    · rintro ⟨hcon, hage⟩
      rw [if_pos (by simp [hcon, hage])]
    · intro hnot
      rw [if_neg (by simp only [Bool.and_eq_true, decide_eq_true_eq]; exact hnot)]
  · intro hl
    unfold get_browser
    rw [hl]

/-- Witness for get_browser_spec: a connected, fresh handle is reused. -/
theorem get_browser_spec_witness :
    get_browser connAll 100 20 poolOne 1 =
      { handle := { pid := 10, created_at := 50 }, pool := poolOne,
        closed := [], launched := false } :=
  ((get_browser_spec connAll 100 20 poolOne 1 (by decide)).1
    { pid := 10, created_at := 50 } (by decide)).1 ⟨rfl, by decide⟩

-- ── C7: outer deadline of the synchronous entry point ────────────────────

/-- C7: when the wall-clock time of the capture session exceeds the outer
deadline of twice the per-operation timeout, the synchronous entry point
returns the deterministic capture-deadline-exceeded failure result (and not
an exception). -/
theorem capture_deadline_result (env : PageEnv) (url : PyStr)
    (project_id entity_id : Nat) (full_page : Bool)
    (viewport_width viewport_height timeout_ms : Nat) (save_html : Bool)
    (wall_ms : Nat) (db : Option (PyStr → PyStr → Nat))
    (h : timeout_ms * 2 < wall_ms) :
    capture_website env url project_id entity_id full_page viewport_width
      viewport_height timeout_ms save_html wall_ms db =
      .ok { success := false, url := url,
            error := some (deadlineError timeout_ms) } := by
  unfold capture_website
  rw [if_pos h]

/-- Witness for capture_deadline_result at the default 30000 ms timeout. -/
theorem capture_deadline_result_witness :
    capture_website envAllOk (pyStr "https://example.com") 1 2 true 1440 900
      30000 true 60001 none =
      .ok { success := false, url := pyStr "https://example.com",
            error := some (pyStr "Capture deadline exceeded (60s)") } :=
  capture_deadline_result envAllOk (pyStr "https://example.com") 1 2 true
    1440 900 30000 true 60001 none (by decide)

-- ── C8: HTTP error short-circuit ─────────────────────────────────────────

/-- C8: a navigation status of 400 or more short-circuits the capture with
success false, error HTTP status, the metadata gathered so far (viewport
data, status code, final URL), no stored artifact, and no extraction step
consulted (the later driver outcomes are arbitrary). -/
theorem capture_http_error_short_circuit (env : PageEnv) (url final_url : PyStr)
    (project_id entity_id : Nat) (full_page : Bool)
    (viewport_width viewport_height : Nat) (save_html : Bool) (status : Nat)
    (hl : env.launch = .ok ()) (hc : env.new_context = .ok ())
    (hp : env.new_page = .ok ())
    (hg : env.goto = .ok (some status, final_url)) (hs : 400 ≤ status) :
    capture_website_async env url project_id entity_id full_page
      viewport_width viewport_height save_html =
      ([], .ok { success := false, url := url,
                 error := some (pyStr "HTTP " ++ natDecimal status),
                 metadata := [(pyStr "viewport_width", .nat viewport_width),
                              (pyStr "viewport_height", .nat viewport_height),
                              (pyStr "full_page", .bool full_page),
                              (pyStr "status_code", .nat status),
                              (pyStr "final_url", .str final_url)],
                 duration_ms := env.elapsed }) := by
  unfold capture_website_async
  rw [hl, hc, hp, hg]
  simp [failUrlResult, hs]

/-- Witness for capture_http_error_short_circuit on an HTTP 404 session. -/
theorem capture_http_error_short_circuit_witness :
    capture_website_async env404 (pyStr "https://example.com") 1 2 true
      1440 900 true =
      ([], .ok { success := false, url := pyStr "https://example.com",
                 error := some (pyStr "HTTP 404"),
                 metadata := [(pyStr "viewport_width", .nat 1440),
                              (pyStr "viewport_height", .nat 900),
                              (pyStr "full_page", .bool true),
                              (pyStr "status_code", .nat 404),
                              (pyStr "final_url",
                               .str (pyStr "https://example.com/missing"))],
                 duration_ms := 1234 }) :=
  capture_http_error_short_circuit env404 (pyStr "https://example.com")
    (pyStr "https://example.com/missing") 1 2 true 1440 900 true 404
    rfl rfl rfl rfl (by decide)

-- ── C1: HTML failure after a stored screenshot ───────────────────────────

/-- C1 (amended): when the screenshot is stored and the later HTML
serialization raises, the capture returns success false with the specific
error, the screenshot stays stored on disk, but the except handler omits
the accumulated evidence paths, so evidence_paths of the returned result is
empty rather than listing the screenshot. -/
theorem capture_html_failure_drops_paths (env : PageEnv) (url : PyStr)
    (project_id entity_id : Nat) (full_page : Bool)
    (viewport_width viewport_height : Nat)
    (status : Nat) (final_url title : PyStr) (screenshot_size : Nat)
    (dimensions : Nat × Nat) (e : PyStr)
    (hl : env.launch = .ok ()) (hc : env.new_context = .ok ())
    (hp : env.new_page = .ok ())
    (hg : env.goto = .ok (some status, final_url)) (hs : status < 400)
    (hw : env.wait_for_timeout = .ok ()) (ht : env.title = .ok title)
    (hss : env.screenshot = .ok screenshot_size)
    (he : env.evaluate = .ok dimensions)
    (hcontent : env.content = .error e) :
    (capture_website_async env url project_id entity_id full_page
        viewport_width viewport_height true).1 =
      [evidence_path_relative project_id entity_id (pyStr "screenshot")
        (generate_filename (url_to_filename url) (pyStr ".png")
          env.ts1 env.sfx1)] ∧
    (capture_website_async env url project_id entity_id full_page
        viewport_width viewport_height true).2.map CaptureResult.success =
      .ok false ∧
    (capture_website_async env url project_id entity_id full_page
        viewport_width viewport_height true).2.map CaptureResult.error =
      .ok (some e) ∧
    (capture_website_async env url project_id entity_id full_page
        viewport_width viewport_height true).2.map CaptureResult.evidence_paths =
      .ok [] := by
  unfold capture_website_async
  rw [hl, hc, hp, hg, hw, ht, hss, he, hcontent]
  simp [failUrlResult, Except.map, Nat.not_le.mpr hs]

/-- Witness for capture_html_failure_drops_paths on a concrete session. -/
theorem capture_html_failure_drops_paths_witness :
    (capture_website_async envHtmlFail (pyStr "https://example.com") 1 2 true
        1440 900 true).1 =
      [evidence_path_relative 1 2 (pyStr "screenshot")
        (generate_filename (url_to_filename (pyStr "https://example.com"))
          (pyStr ".png") envHtmlFail.ts1 envHtmlFail.sfx1)] ∧
    (capture_website_async envHtmlFail (pyStr "https://example.com") 1 2 true
        1440 900 true).2.map CaptureResult.evidence_paths = .ok [] := by
  have h := capture_html_failure_drops_paths envHtmlFail
    (pyStr "https://example.com") 1 2 true 1440 900
    200 (pyStr "https://example.com/") (pyStr "Example Domain") 1000
    (1440, 2000) (pyStr "Timeout 30000ms exceeded")
    rfl rfl rfl rfl (by decide) rfl rfl rfl rfl rfl
  exact ⟨h.1, h.2.2.2⟩

set_option maxRecDepth 40000 in
/-- C1 (corrected part): on a session whose screenshot is stored and whose
HTML step then fails, the stored-file list holds exactly the screenshot
path while evidence_paths of the failure result is empty, not that path. -/
theorem capture_html_failure_cx :
    (capture_website_async envHtmlFail (pyStr "https://example.com") 1 2 true
        1440 900 true).1 =
      [pyStr "1/2/screenshot/examplecom_20260101_120000_deadbeef.png"] ∧
    (capture_website_async envHtmlFail (pyStr "https://example.com") 1 2 true
        1440 900 true).2.map CaptureResult.success = .ok false ∧
    (capture_website_async envHtmlFail (pyStr "https://example.com") 1 2 true
        1440 900 true).2.map CaptureResult.evidence_paths = .ok [] ∧
    (capture_website_async envHtmlFail (pyStr "https://example.com") 1 2 true
        1440 900 true).2.map CaptureResult.evidence_paths ≠
      .ok ((capture_website_async envHtmlFail (pyStr "https://example.com")
        1 2 true 1440 900 true).1) := by
  decide

-- ── C2: exception propagation at the session boundary ────────────────────

theorem capture_website_async_no_escape (env : PageEnv) (url : PyStr)
    (project_id entity_id : Nat) (full_page : Bool)
    (viewport_width viewport_height : Nat) (save_html : Bool)
    (hc : env.new_context.isOk = true) (hp : env.new_page.isOk = true) :
    (capture_website_async env url project_id entity_id full_page
      viewport_width viewport_height save_html).2.isOk = true := by
  obtain ⟨launch, nctx, npage, goto, wft, title, shot, dims, content,
    ts1, sfx1, ts2, sfx2, el⟩ := env
  unfold capture_website_async
  dsimp only
  rcases launch with e | u
  · rfl
  dsimp only
  rcases nctx with e | u2
  · exact absurd hc (by simp [Except.isOk, Except.toBool])
  dsimp only
  rcases npage with e | u3
  · exact absurd hp (by simp [Except.isOk, Except.toBool])
  dsimp only
  rcases goto with e | ⟨respStatus, final_url⟩
  · rfl
  dsimp only
  by_cases hst : 400 ≤ respStatus.getD 0
  · rw [if_pos hst]
    rfl
  · rw [if_neg hst]
    rcases wft with e | u4
    · rfl
    dsimp only
    rcases title with e | t
    · rfl
    dsimp only
    rcases shot with e | ss
    · rfl
    dsimp only
    rcases dims with e | d
    · rfl
    dsimp only
    cases save_html
    · rfl
    · rcases content with e | hsz <;> rfl

/-- C2 (amended): exceptions raised by browser launch or inside the guarded
session body are converted to a CaptureResult at the boundary, but an
exception raised while opening the context or the page occurs outside the
try block, and the synchronous entry point catches only the deadline
timeout, so such a driver-level exception escapes it. -/
theorem capture_website_no_escape (env : PageEnv) (url : PyStr)
    (project_id entity_id : Nat) (full_page : Bool)
    (viewport_width viewport_height timeout_ms : Nat) (save_html : Bool)
    (wall_ms : Nat) (db : Option (PyStr → PyStr → Nat))
    (hc : env.new_context.isOk = true) (hp : env.new_page.isOk = true) :
    (capture_website env url project_id entity_id full_page viewport_width
      viewport_height timeout_ms save_html wall_ms db).isOk = true := by
  unfold capture_website
  split
  · rfl
  · have h := capture_website_async_no_escape env url project_id entity_id
      full_page viewport_width viewport_height save_html hc hp
    cases hasync : (capture_website_async env url project_id entity_id
        full_page viewport_width viewport_height save_html).2 with
    | error e =>
      rw [hasync] at h
      exact absurd h (by simp [Except.isOk, Except.toBool])
    | ok result =>
      dsimp only
      cases db with
      | none => rfl
      | some add_evidence =>
        dsimp only
        split <;> rfl

/-- Witness for capture_website_no_escape on a concrete session. -/
theorem capture_website_no_escape_witness :
    (capture_website envHtmlFail (pyStr "https://example.com") 1 2 true
      1440 900 30000 true 100 none).isOk = true :=
  capture_website_no_escape envHtmlFail (pyStr "https://example.com") 1 2 true
    1440 900 30000 true 100 none (by decide) (by decide)

/-- C2 (corrected part): a driver-level exception raised while opening the
browser context escapes the synchronous entry point instead of being
converted into a CaptureResult. -/
theorem capture_context_exception_escapes_cx :
    capture_website envCtxBoom (pyStr "https://example.com") 1 2 true 1440 900
      30000 true 100 none = .error (pyStr "boom") := by decide

-- ── C5: document download size cap ───────────────────────────────────────

/-- C5 (amended): a document whose body exceeds the 50 MiB cap yields a
failure result and nothing is stored, but the cap is checked only after the
whole response body has been buffered in memory, not at the read
boundary. -/
theorem capture_document_too_large (env : DocEnv) (url : PyStr)
    (project_id entity_id : Nat) (db : Option (PyStr → PyStr → Nat))
    (resp : HttpResponse) (hr : env.response = .ok resp)
    (hok : resp.status_code < 400) (hbig : MAX_UPLOAD_SIZE < resp.body_len) :
    capture_document env url project_id entity_id db =
      { buffered := resp.body_len, stored := [],
        result := { success := false, url := url,
                    error := some (pyStr "Document too large (" ++
                      fmtMB1 resp.body_len ++ pyStr " MB)"),
                    duration_ms := env.elapsed } } := by
  unfold capture_document
  rw [hr]
  dsimp only
  rw [if_neg (by omega : ¬ 400 ≤ resp.status_code), if_pos hbig]

/-- Witness for capture_document_too_large on a 100 MiB body. -/
theorem capture_document_too_large_witness :
    capture_document denvBig (pyStr "https://example.com/huge.pdf") 1 10 none =
      { buffered := 2 * MAX_UPLOAD_SIZE, stored := [],
        result := { success := false,
                    url := pyStr "https://example.com/huge.pdf",
                    error := some (pyStr "Document too large (100.0 MB)"),
                    duration_ms := 5 } } := by
  have h := capture_document_too_large denvBig
    (pyStr "https://example.com/huge.pdf") 1 10 none
    { status_code := 200, content_type := pyStr "application/pdf",
      body_len := 2 * MAX_UPLOAD_SIZE }
    rfl (by decide) (by decide)
  exact h

/-- C5 (corrected part): on a body of twice the cap, the whole body is
buffered in memory before the size check fails, refuting the read-boundary
part of the claim while the failure-and-store-nothing part holds. -/
theorem capture_document_buffering_cx :
    MAX_UPLOAD_SIZE <
      (capture_document denvBig (pyStr "https://example.com/huge.pdf")
        1 10 none).buffered ∧
    (capture_document denvBig (pyStr "https://example.com/huge.pdf")
        1 10 none).buffered = 2 * MAX_UPLOAD_SIZE ∧
    (capture_document denvBig (pyStr "https://example.com/huge.pdf")
        1 10 none).stored = [] ∧
    (capture_document denvBig (pyStr "https://example.com/huge.pdf")
        1 10 none).result.success = false := by
  decide

end Capture
